import Mathlib

/-!
Verification of the Couchbase test-container module
(`modules/couchbase/testcontainers/couchbase/__init__.py`).

The module is a fixed sequence of HTTP calls against the Couchbase
management API: readiness polling, then four provisioning POSTs
(admin credentials, bucket, scope, collection), then client / inspection
accessors.  We embed the module shallowly: the HTTP layer (the `requests`
library) is abstracted as an oracle mapping each issued request to a
response, and every method of `CouchbaseContainer` becomes a pure Lean
function of the configuration and that oracle, returning both the list of
requests it issued and its result (`Except` models the Python exception).
-/

namespace Couchbase

/-- HTTP method of an issued request (only GET and POST occur). -/
inductive Method where
  | get
  | post
deriving DecidableEq, Repr

/-- A form-data value as sent by `requests` (`data={...}`): the source mixes
string and integer values. -/
inductive FormVal where
  | str (s : String)
  | int (n : Int)
deriving DecidableEq, Repr

/-- An HTTP request as the module builds it: method, full URL, form body,
and optional basic-auth credentials (username, password). -/
structure Request where
  method : Method
  url : String
  body : List (String × FormVal)
  auth : Option (String × String)
deriving DecidableEq, Repr

/-- A minimal JSON value, standing for the parsed body that
`response.json()` yields. -/
inductive JsonVal where
  | null
  | bool (b : Bool)
  | num (n : Int)
  | str (s : String)
  | arr (xs : List JsonVal)
  | obj (fields : List (String × JsonVal))

/-- An HTTP response as the module consumes it: the status code, the raw
body text (`response.text`), and the parsed body (`response.json()`,
supplied directly since parsing lives in the external `requests` library). -/
structure Response where
  statusCode : Nat
  text : String
  jsonBody : JsonVal

/-- The success test the module applies to every response:
`200 <= response.status_code < 300`. -/
def is2xx (r : Response) : Prop :=
  200 ≤ r.statusCode ∧ r.statusCode < 300

instance (r : Response) : Decidable (is2xx r) := by
  unfold is2xx; infer_instance

/-- Outcome of one poll attempt in `_connect`: either a response arrived or
`requests.exceptions.ConnectionError` was raised. -/
inductive PollResult where
  | response (r : Response)
  | connError

/-- Whether a poll attempt observed a 2xx response (a connection error is
not a success). -/
def pollSuccess : PollResult → Prop
  | .response r => is2xx r
  | .connError => False

instance (p : PollResult) : Decidable (pollSuccess p) := by
  cases p <;> unfold pollSuccess <;> infer_instance

/-! ## Configuration resolution (`__init__`)

The constructor resolves each of the five fields with the Python
expression `arg or os.environ.get(VAR, fallback)`.  Python's `or` takes
the right operand when the left is falsy, and both `None` and the empty
string are falsy; `os.environ.get` returns the variable's value whenever
the variable is set, even when that value is the empty string. -/

/-- Python `a or b` on an optional string `a`: `None` and `""` are falsy. -/
def pyOrStr (a : Option String) (b : String) : String :=
  match a with
  | none => b
  | some s => if s = "" then b else s

/-- Python `os.environ.get(var, default)`: the variable's value when set
(even if empty), the default otherwise. -/
def envGetD (v : Option String) (dflt : String) : String :=
  match v with
  | none => dflt
  | some s => s

/-- The relevant environment: the five `COUCHBASE_*` variables, each
possibly unset. -/
structure Env where
  username : Option String
  password : Option String
  bucket : Option String
  scope : Option String
  collection : Option String
deriving DecidableEq, Repr

/-- The five optional constructor arguments. -/
structure CtorArgs where
  username : Option String
  password : Option String
  bucket : Option String
  scope : Option String
  collection : Option String
deriving DecidableEq, Repr

/-- The resolved configuration stored on the instance (immutable in the
embedding: every operation below is a pure function of it). -/
structure Config where
  username : String
  password : String
  bucket : String
  scope : String
  collection : String
deriving DecidableEq, Repr

/-- `__init__`'s field resolution:
`self.username = username or os.environ.get("COUCHBASE_USERNAME", "Administrator")`
and likewise for the other four fields. -/
def mkConfig (args : CtorArgs) (env : Env) : Config :=
  { username := pyOrStr args.username (envGetD env.username "Administrator")
    password := pyOrStr args.password (envGetD env.password "password")
    bucket := pyOrStr args.bucket (envGetD env.bucket "default")
    scope := pyOrStr args.scope (envGetD env.scope "default")
    collection := pyOrStr args.collection (envGetD env.collection "default") }

/-- The resolution rule as the specification words it: the explicit
argument whenever one is given, else the environment value whenever the
variable is set, else the fallback.  (Stated from the spec, to be compared
with `mkConfig`, which is stated from the source.) -/
def specResolve (arg envVar : Option String) (fallback : String) : String :=
  match arg with
  | some s => s
  | none =>
    match envVar with
    | some e => e
    | none => fallback

/-- The resolution rule as amended: the explicit argument when given and
non-empty (Python truthiness: an empty-string argument is falsy and falls
through), else the environment value whenever the variable is set (even
to the empty string), else the fallback. -/
def specResolveAmended (arg envVar : Option String) (fallback : String) : String :=
  match arg with
  | some s =>
    if s = "" then
      match envVar with
      | some e => e
      | none => fallback
    else s
  | none =>
    match envVar with
    | some e => e
    | none => fallback

/-! ## Port configuration (`__init__`) -/

/-- The fixed default port list from `__init__`. -/
def defaultPorts : List Nat :=
  [8091, 8092, 8093, 8094, 8095, 8096, 8097, 9123, 11207, 11210, 11280,
   18091, 18092, 18093, 18094, 18095, 18096, 18097]

/-- `if ports is None or len(ports) == 0: ports = [...]`. -/
def resolvePorts (ports : Option (List Nat)) : List Nat :=
  match ports with
  | none => defaultPorts
  | some ps => if ps.length = 0 then defaultPorts else ps

/-- The port wiring the constructor performs: for every resolved port it
calls `with_exposed_ports(port)` and `with_bind_ports(port, port)`.
Returns (exposed ports, (container port, host port) bindings). -/
def portWiring (ports : Option (List Nat)) : List Nat × List (Nat × Nat) :=
  ((resolvePorts ports), (resolvePorts ports).map (fun p => (p, p)))

/-! ## URLs of the management API

`host` stands for `self.get_container_host_ip()` and `port` for
`self.get_exposed_port(8091)`, both supplied by the external container
handle. -/

/-- `http://{host}:{port}/settings/web`. -/
def settingsUrl (host port : String) : String :=
  "http://" ++ host ++ ":" ++ port ++ "/settings/web"

/-- `http://{host}:{port}/pools/default/buckets`. -/
def bucketsUrl (host port : String) : String :=
  "http://" ++ host ++ ":" ++ port ++ "/pools/default/buckets"

/-- `http://{host}:{port}/pools/default/buckets/{bucket}/scopes`. -/
def scopesUrl (host port bucket : String) : String :=
  bucketsUrl host port ++ "/" ++ bucket ++ "/scopes"

/-- `.../buckets/{bucket}/scopes/{scope}/collections`. -/
def collectionsUrl (host port bucket scope : String) : String :=
  scopesUrl host port bucket ++ "/" ++ scope ++ "/collections"

/-! ## The four provisioning calls and the inspection accessor

Each source method issues exactly one request via the external `requests`
library; the library is abstracted as an oracle `respond : Request →
Response`.  Each embedded function returns the request it issued together
with its result; `Except.error detail` models
`raise RuntimeError(response.text)`. -/

/-- The unauthenticated readiness GET that `_connect` issues each
iteration. -/
def settingsGetRequest (host port : String) : Request :=
  { method := .get, url := settingsUrl host port, body := [], auth := none }

/-- The request of `set_admin_credentials`: unauthenticated POST of
`{"username": ..., "password": ..., "port": "SAME"}` to the settings
endpoint. -/
def setAdminCredentialsRequest (cfg : Config) (host port : String) : Request :=
  { method := .post
    url := settingsUrl host port
    body := [("username", .str cfg.username), ("password", .str cfg.password),
             ("port", .str "SAME")]
    auth := none }

/-- The request of `_create_bucket`: POST of
`{'name': ..., 'bucketType': 'couchbase', 'ramQuotaMB': 256}` with
`HTTPBasicAuth(self.username, self.password)`. -/
def createBucketRequest (cfg : Config) (host port : String) : Request :=
  { method := .post
    url := bucketsUrl host port
    body := [("name", .str cfg.bucket), ("bucketType", .str "couchbase"),
             ("ramQuotaMB", .int 256)]
    auth := some (cfg.username, cfg.password) }

/-- The request of `_create_scope`: POST of `{'name': ...}` with basic
auth. -/
def createScopeRequest (cfg : Config) (host port : String) : Request :=
  { method := .post
    url := scopesUrl host port cfg.bucket
    body := [("name", .str cfg.scope)]
    auth := some (cfg.username, cfg.password) }

/-- The request of `_create_collection`: POST of
`{'name': ..., 'maxTTL': 3600, 'history': str(False).lower()}` with basic
auth (`str(False).lower()` is the string `"false"`). -/
def createCollectionRequest (cfg : Config) (host port : String) : Request :=
  { method := .post
    url := collectionsUrl host port cfg.bucket cfg.scope
    body := [("name", .str cfg.collection), ("maxTTL", .int 3600),
             ("history", .str "false")]
    auth := some (cfg.username, cfg.password) }

/-- `set_admin_credentials`: issue the POST; return normally on
`200 <= status_code < 300`, else `raise RuntimeError(response.text)`. -/
def set_admin_credentials (cfg : Config) (host port : String)
    (respond : Request → Response) : Request × Except String Unit :=
  let req := setAdminCredentialsRequest cfg host port
  let response := respond req
  if 200 ≤ response.statusCode ∧ response.statusCode < 300 then (req, .ok ())
  else (req, .error response.text)

/-- `_create_bucket`: same success test and error as
`set_admin_credentials`, on its own request. -/
def create_bucket (cfg : Config) (host port : String)
    (respond : Request → Response) : Request × Except String Unit :=
  let req := createBucketRequest cfg host port
  let response := respond req
  if 200 ≤ response.statusCode ∧ response.statusCode < 300 then (req, .ok ())
  else (req, .error response.text)

/-- `_create_scope`. -/
def create_scope (cfg : Config) (host port : String)
    (respond : Request → Response) : Request × Except String Unit :=
  let req := createScopeRequest cfg host port
  let response := respond req
  if 200 ≤ response.statusCode ∧ response.statusCode < 300 then (req, .ok ())
  else (req, .error response.text)

/-- `_create_collection`. -/
def create_collection (cfg : Config) (host port : String)
    (respond : Request → Response) : Request × Except String Unit :=
  let req := createCollectionRequest cfg host port
  let response := respond req
  if 200 ≤ response.statusCode ∧ response.statusCode < 300 then (req, .ok ())
  else (req, .error response.text)

/-- `list_buckets`: basic-auth GET against the buckets endpoint; parsed
body (`response.json()`) on 2xx, else `raise RuntimeError(response.text)`.
A pure function of the configuration and the oracle: it mutates no
instance state. -/
def list_buckets (cfg : Config) (host port : String)
    (respond : Request → Response) : Request × Except String JsonVal :=
  let req : Request :=
    { method := .get, url := bucketsUrl host port, body := [],
      auth := some (cfg.username, cfg.password) }
  let response := respond req
  if 200 ≤ response.statusCode ∧ response.statusCode < 300 then
    (req, .ok response.jsonBody)
  else (req, .error response.text)

/-! ## Readiness polling (`_connect`)

After the external `wait_for_logs(self, "and logs available in")`, the
source enters `while True: sleep(1); GET settings/web; break on 2xx;
pass on non-2xx; pass on ConnectionError`.  The loop is embedded with
explicit fuel (an external bound on the number of iterations, since the
source loop itself is unbounded) and a time-indexed oracle
`poll : Nat → PollResult` giving the outcome of each successive attempt.
Each iteration starts with `sleep(1)`, so attempt `k` is issued `k + 1`
seconds into the loop. -/

/-- `sleep(1)`: the fixed polling period in seconds. -/
def pollIntervalSeconds : Nat := 1

/-- The second at which poll attempt `k` (0-based) is issued, counting
from loop entry: every iteration sleeps `pollIntervalSeconds` before its
GET. -/
def attemptSecond (k : Nat) : Nat := (k + 1) * pollIntervalSeconds

/-- The polling loop from attempt `i` with `fuel` iterations left.
Returns the requests issued (one settings GET per iteration) and `some k`
when attempt `k` saw the first 2xx response, `none` when the fuel ran out
with the loop still running. -/
def connectFrom (host port : String) (poll : Nat → PollResult) :
    Nat → Nat → List Request × Option Nat
  | _, 0 => ([], none)
  | i, fuel + 1 =>
    let req := settingsGetRequest host port
    match poll i with
    | .response r =>
      if 200 ≤ r.statusCode ∧ r.statusCode < 300 then ([req], some i)
      else
        let rest := connectFrom host port poll (i + 1) fuel
        (req :: rest.1, rest.2)
    | .connError =>
      let rest := connectFrom host port poll (i + 1) fuel
      (req :: rest.1, rest.2)

/-- `_connect`'s polling loop, from its start. -/
def connect (host port : String) (poll : Nat → PollResult) (fuel : Nat) :
    List Request × Option Nat :=
  connectFrom host port poll 0 fuel

/-- A management endpoint that never answers 2xx: every poll attempt gets
HTTP 500. -/
def neverReadyPoll : Nat → PollResult :=
  fun _ => .response { statusCode := 500, text := "Internal Server Error", jsonBody := .null }

/-- An endpoint that is ready at once: every poll attempt gets HTTP 200. -/
def alwaysReadyPoll : Nat → PollResult :=
  fun _ => .response { statusCode := 200, text := "", jsonBody := .null }

/-- A management API that rejects every request with HTTP 401. -/
def denyAllRespond : Request → Response :=
  fun _ => { statusCode := 401, text := "denied", jsonBody := .null }

/-- A resolved configuration holding all the hardcoded fallbacks. -/
def sampleConfig : Config :=
  { username := "Administrator", password := "password", bucket := "default",
    scope := "default", collection := "default" }

/-! ## The `start()` sequence -/

/-- The provisioning tail of `start()`: `set_admin_credentials`, then
`_create_bucket`, then `_create_scope`, then `_create_collection`; a
raised exception propagates immediately out of `start`, so each call is
issued only if every earlier call returned normally.  Returns the
provisioning requests issued, in order, with the overall outcome. -/
def provisionSequence (cfg : Config) (host port : String)
    (respond : Request → Response) : List Request × Except String Unit :=
  let s1 := set_admin_credentials cfg host port respond
  match s1.2 with
  | .error e => ([s1.1], .error e)
  | .ok _ =>
    let s2 := create_bucket cfg host port respond
    match s2.2 with
    | .error e => ([s1.1, s2.1], .error e)
    | .ok _ =>
      let s3 := create_scope cfg host port respond
      match s3.2 with
      | .error e => ([s1.1, s2.1, s3.1], .error e)
      | .ok _ =>
        let s4 := create_collection cfg host port respond
        ([s1.1, s2.1, s3.1, s4.1], s4.2)

/-- The HTTP trace of `start()` once the container is up: `_connect`
(readiness polling), and only if it terminated, the provisioning
sequence.  `none` models `_connect` still polling after `fuel` attempts;
otherwise the combined request trace and the outcome of `start`. -/
def startRun (cfg : Config) (host port : String) (poll : Nat → PollResult)
    (respond : Request → Response) (fuel : Nat) :
    Option (List Request × Except String Unit) :=
  let c := connect host port poll fuel
  match c.2 with
  | none => none
  | some _ =>
    let p := provisionSequence cfg host port respond
    some (c.1 ++ p.1, p.2)

/-! ## Client factory (`get_connection_url`, `client`)

The Couchbase SDK (`PasswordAuthenticator`, `ClusterOptions`,
`ClusterTimeoutOptions`, `Cluster`) is an external collaborator; its
option records are embedded as plain structures and its
`wait_until_ready` as a readiness oracle. -/

/-- `get_connection_url`: `f"couchbases://{self.get_container_host_ip()}"`. -/
def get_connection_url (host : String) : String :=
  "couchbases://" ++ host

/-- The scheme of a URL: the characters before the first colon. -/
def urlScheme (url : String) : String :=
  ⟨url.data.takeWhile (fun c => c ≠ ':')⟩

/-- The host part of a `scheme://host` URL: everything after the first
colon and the two slashes. -/
def urlHostPart (url : String) : String :=
  ⟨(url.data.dropWhile (fun c => c ≠ ':')).drop 3⟩

/-- `TLSVerifyMode` of the external SDK (`NONE` disables verification). -/
inductive TLSVerifyModeM where
  | noVerify
  | peer
deriving DecidableEq, Repr

/-- `ClusterTimeoutOptions(kv_timeout=...)` of the external SDK. -/
structure ClusterTimeoutOptionsM where
  kvTimeoutSeconds : Nat
deriving DecidableEq, Repr

/-- `ClusterOptions(auth, timeout_options=..., enable_tcp_keep_alive=...,
tls_verify=...)` of the external SDK, with the `PasswordAuthenticator`
inlined as its username/password pair. -/
structure ClusterOptionsM where
  authUsername : String
  authPassword : String
  timeoutOptions : ClusterTimeoutOptionsM
  enableTcpKeepAlive : Bool
  tlsVerify : TLSVerifyModeM
deriving DecidableEq, Repr

/-- A `Cluster` handle of the external SDK: the connection string it was
given and the options it holds. -/
structure ClusterM where
  connstr : String
  options : ClusterOptionsM
deriving DecidableEq, Repr

/-- `client()`: build a fresh `Cluster` from `PasswordAuthenticator
(username, password)`, `kv_timeout=timedelta(seconds=10)`,
`enable_tcp_keep_alive=True`, `tls_verify=TLSVerifyMode.NONE`, then
`cluster.wait_until_ready(timedelta(seconds=15))`.  The SDK's readiness
wait is the oracle `readyWithin s`: whether the cluster reports ready
within `s` seconds; when it does not, `wait_until_ready` raises a timeout
error, modelled as `.error`. -/
def client (cfg : Config) (host : String) (readyWithin : Nat → Bool) :
    Except String ClusterM :=
  let options : ClusterOptionsM :=
    { authUsername := cfg.username
      authPassword := cfg.password
      timeoutOptions := { kvTimeoutSeconds := 10 }
      enableTcpKeepAlive := true
      tlsVerify := .noVerify }
  let cluster : ClusterM := { connstr := get_connection_url host, options := options }
  if readyWithin 15 then .ok cluster else .error "ClusterReadinessTimeout"

/-! ## Shared lemmas about the polling loop -/

/-- The polling loop terminates with attempt `k` exactly when `k` is the
first attempt (at or after the start index) whose response is 2xx, and
the fuel reaches it. -/
theorem connectFrom_some_iff (host port : String) (poll : Nat → PollResult)
    (fuel i k : Nat) :
    (connectFrom host port poll i fuel).2 = some k ↔
      i ≤ k ∧ k < i + fuel ∧ pollSuccess (poll k) ∧
        ∀ j, i ≤ j → j < k → ¬ pollSuccess (poll j) := by
  induction fuel generalizing i with
  | zero => simp [connectFrom]; omega
  | succ n ih =>
    rw [connectFrom]
    cases hp : poll i with
    | response r =>
      dsimp only
      by_cases h2 : 200 ≤ r.statusCode ∧ r.statusCode < 300
      · rw [if_pos h2]
        simp only [Option.some_inj]
        constructor
        · rintro rfl
          refine ⟨le_refl _, by omega, by simp [pollSuccess, hp, is2xx, h2], ?_⟩
          intro j hj1 hj2; omega
        · rintro ⟨h1, _, hs, hmin⟩
          rcases Nat.eq_or_lt_of_le h1 with rfl | hlt
          · rfl
          · exact absurd (by simp [pollSuccess, hp, is2xx, h2]) (hmin i (le_refl i) hlt)
      · rw [if_neg h2]
        rw [ih (i + 1)]
        constructor
        · rintro ⟨h1, hk, hs, hmin⟩
          refine ⟨by omega, by omega, hs, ?_⟩
          intro j hj1 hj2
          rcases Nat.eq_or_lt_of_le hj1 with rfl | hlt
          · simp [pollSuccess, hp, is2xx, h2]
          · exact hmin j (by omega) hj2
        · rintro ⟨h1, hk, hs, hmin⟩
          have hik : i < k := by
            rcases Nat.eq_or_lt_of_le h1 with rfl | hlt
            · exact absurd hs (by simp [pollSuccess, hp, is2xx, h2])
            · exact hlt
          exact ⟨by omega, by omega, hs, fun j hj1 hj2 => hmin j (by omega) hj2⟩
    | connError =>
      dsimp only
      rw [ih (i + 1)]
      constructor
      · rintro ⟨h1, hk, hs, hmin⟩
        refine ⟨by omega, by omega, hs, ?_⟩
        intro j hj1 hj2
        rcases Nat.eq_or_lt_of_le hj1 with rfl | hlt
        · simp [pollSuccess, hp]
        · exact hmin j (by omega) hj2
      · rintro ⟨h1, hk, hs, hmin⟩
        have hik : i < k := by
          rcases Nat.eq_or_lt_of_le h1 with rfl | hlt
          · exact absurd hs (by simp [pollSuccess, hp])
          · exact hlt
        exact ⟨by omega, by omega, hs, fun j hj1 hj2 => hmin j (by omega) hj2⟩

/-- When the polling loop terminates with attempt `k`, it issued exactly
the attempts from its start index through `k`, every one of them the
settings GET. -/
theorem connectFrom_trace (host port : String) (poll : Nat → PollResult)
    (fuel i k : Nat)
    (h : (connectFrom host port poll i fuel).2 = some k) :
    (connectFrom host port poll i fuel).1 =
      List.replicate (k + 1 - i) (settingsGetRequest host port) := by
  induction fuel generalizing i with
  | zero => simp [connectFrom] at h
  | succ n ih =>
    rw [connectFrom] at h ⊢
    cases hp : poll i with
    | response r =>
      rw [hp] at h
      dsimp only at h ⊢
      by_cases h2 : 200 ≤ r.statusCode ∧ r.statusCode < 300
      · rw [if_pos h2] at h ⊢
        obtain rfl : i = k := by simpa using h
        have hone : i + 1 - i = 1 := by omega
        rw [hone, List.replicate_one]
      · rw [if_neg h2] at h ⊢
        have hk : i + 1 ≤ k :=
          ((connectFrom_some_iff host port poll n (i + 1) k).mp h).1
        have htr := ih (i + 1) h
        rw [htr]
        have : k + 1 - i = (k + 1 - (i + 1)) + 1 := by omega
        rw [this, List.replicate_succ]
    | connError =>
      rw [hp] at h
      dsimp only at h ⊢
      have hk : i + 1 ≤ k :=
        ((connectFrom_some_iff host port poll n (i + 1) k).mp h).1
      have htr := ih (i + 1) h
      rw [htr]
      have : k + 1 - i = (k + 1 - (i + 1)) + 1 := by omega
      rw [this, List.replicate_succ]

/-- C3: the readiness poller, after the log-marker wait, repeatedly
issues the settings GET at the fixed 1-second interval (attempt `k`
falls `k + 1` seconds after loop entry); it terminates successfully
exactly when a 2xx response is first observed, and keeps polling — it
neither fails nor aborts — on every earlier non-2xx response or
connection error. -/
theorem connect_poll_spec (host port : String) (poll : Nat → PollResult)
    (fuel k : Nat) :
    ((connect host port poll fuel).2 = some k ↔
       k < fuel ∧ pollSuccess (poll k) ∧ ∀ j, j < k → ¬ pollSuccess (poll j))
    ∧ ((connect host port poll fuel).2 = some k →
       (connect host port poll fuel).1 =
         List.replicate (k + 1) (settingsGetRequest host port))
    ∧ attemptSecond k = k + 1 := by
  refine ⟨?_, ?_, ?_⟩
  · rw [connect, connectFrom_some_iff]
    constructor
    · rintro ⟨_, hk, hs, hmin⟩
      exact ⟨by omega, hs, fun j hj => hmin j (Nat.zero_le j) hj⟩
    · rintro ⟨hk, hs, hmin⟩
      exact ⟨Nat.zero_le k, by omega, hs, fun j _ hj => hmin j hj⟩
  · intro h
    rw [connect] at h ⊢
    have := connectFrom_trace host port poll fuel 0 k h
    simpa using this
  · simp [attemptSecond, pollIntervalSeconds]

/-- Witness for C3: with the endpoint refusing connections on the first
two attempts and answering 200 on the third, the loop issues exactly
three settings GETs. -/
theorem connect_poll_spec_witness :
    (connect "localhost" "8091"
      (fun j => if j < 2 then PollResult.connError
                else PollResult.response { statusCode := 200, text := "OK", jsonBody := .null })
      5).1 =
      List.replicate 3 (settingsGetRequest "localhost" "8091") :=
  (connect_poll_spec "localhost" "8091"
    (fun j => if j < 2 then PollResult.connError
              else PollResult.response { statusCode := 200, text := "OK", jsonBody := .null })
    5 2).2.1 rfl

/-- C4: against an endpoint that never answers 2xx, the readiness loop is
still running after every finite number of iterations: the source loop
(`while True` with bare `pass` on failure) has no timeout path at all, so
no `ReadinessTimeout` is ever raised — contradicting the claim, which the
specification itself flags as a hardening beyond the literal source. -/
theorem connect_never_ready_loops (host port : String) (fuel : Nat) :
    (connect host port neverReadyPoll fuel).2 = none := by
  cases h : (connect host port neverReadyPoll fuel).2 with
  | none => rfl
  | some k =>
    rw [connect] at h
    have hs := ((connectFrom_some_iff host port neverReadyPoll fuel 0 k).mp h).2.2.1
    simp [neverReadyPoll, pollSuccess, is2xx] at hs

/-! ## Configuration resolution -/

/-- The source's resolution (`arg or os.environ.get(VAR, fallback)`)
agrees field-wise with the amended rule. -/
theorem pyOrStr_envGetD_eq_amended (a e : Option String) (d : String) :
    pyOrStr a (envGetD e d) = specResolveAmended a e d := by
  cases a <;> cases e <;> simp [pyOrStr, envGetD, specResolveAmended]

/-- C5 fails as stated: with the explicit username argument `""` (given,
but falsy to Python's `or`) and the environment variable set to
`"envuser"`, the constructor resolves `"envuser"`, while resolution by
the claimed precedence (explicit argument whenever given) yields `""`. -/
theorem config_resolution_counterexample :
    (mkConfig
      { username := some "", password := none, bucket := none, scope := none,
        collection := none }
      { username := some "envuser", password := none, bucket := none, scope := none,
        collection := none }).username = "envuser" ∧
    specResolve (some "") (some "envuser") "Administrator" = "" ∧
    ("envuser" : String) ≠ "" :=
  ⟨rfl, rfl, by decide⟩

/-- C5 amended: each of the five fields resolves to the explicit
constructor argument when it is given and non-empty; an omitted or
empty-string argument falls through to the corresponding `COUCHBASE_*`
environment variable whenever that variable is set (even to the empty
string), else to the hardcoded fallback (`"Administrator"`, `"password"`,
`"default"`, `"default"`, `"default"` respectively); the resolved values
are immutable after construction (every operation is a pure function of
the `Config`). -/
theorem config_resolution_amended (args : CtorArgs) (env : Env) :
    mkConfig args env =
      { username := specResolveAmended args.username env.username "Administrator"
        password := specResolveAmended args.password env.password "password"
        bucket := specResolveAmended args.bucket env.bucket "default"
        scope := specResolveAmended args.scope env.scope "default"
        collection := specResolveAmended args.collection env.collection "default" } := by
  simp [mkConfig, pyOrStr_envGetD_eq_amended]

/-! ## Connection URL and client factory -/

/-- C6: the connection URL's scheme is the encrypted-transport scheme
`couchbases` and its host part is exactly the container's advertised
host, for every host (the function reads no TLS-verification setting at
all). -/
theorem connection_url_scheme_host (host : String) :
    urlScheme (get_connection_url host) = "couchbases" ∧
    urlHostPart (get_connection_url host) = host := by
  constructor
  · rfl
  · simp [urlHostPart, get_connection_url]

/-- C9: every call to `client()` builds a fresh handle holding basic
password authentication with the resolved credentials, a 10-second
key-value timeout, TCP keep-alive enabled and TLS verification disabled,
bound to the encrypted connection URL; it returns it exactly when the
cluster reports ready within the 15-second wait, and surfaces a timeout
error otherwise. -/
theorem client_spec (cfg : Config) (host : String) (readyWithin : Nat → Bool) :
    (readyWithin 15 = true →
      client cfg host readyWithin = .ok
        { connstr := get_connection_url host
          options :=
            { authUsername := cfg.username
              authPassword := cfg.password
              timeoutOptions := { kvTimeoutSeconds := 10 }
              enableTcpKeepAlive := true
              tlsVerify := .noVerify } }) ∧
    (readyWithin 15 = false →
      client cfg host readyWithin = .error "ClusterReadinessTimeout") := by
  constructor <;> intro h <;> simp [client, h]

/-- Witness for C9 at a concrete configuration and an always-ready
cluster. -/
theorem client_spec_witness :
    client
      { username := "Administrator", password := "password", bucket := "default",
        scope := "default", collection := "default" }
      "localhost" (fun _ => true) =
      .ok
        { connstr := get_connection_url "localhost"
          options :=
            { authUsername := "Administrator"
              authPassword := "password"
              timeoutOptions := { kvTimeoutSeconds := 10 }
              enableTcpKeepAlive := true
              tlsVerify := .noVerify } } :=
  (client_spec
    { username := "Administrator", password := "password", bucket := "default",
      scope := "default", collection := "default" }
    "localhost" (fun _ => true)).1 rfl

/-! ## Ports -/

/-- C10: with `ports` omitted (`None`) or the empty list, the container
exposes the fixed default set of 18 ports — 8091-8097, 9123, 11207,
11210, 11280, 18091-18097 — each bound to the identical host port; with a
non-empty list, exactly the given ports are exposed and bound 1:1. -/
theorem port_wiring_spec :
    (portWiring none =
      ([8091, 8092, 8093, 8094, 8095, 8096, 8097, 9123, 11207, 11210, 11280,
        18091, 18092, 18093, 18094, 18095, 18096, 18097],
       [(8091, 8091), (8092, 8092), (8093, 8093), (8094, 8094), (8095, 8095),
        (8096, 8096), (8097, 8097), (9123, 9123), (11207, 11207), (11210, 11210),
        (11280, 11280), (18091, 18091), (18092, 18092), (18093, 18093),
        (18094, 18094), (18095, 18095), (18096, 18096), (18097, 18097)])) ∧
    (portWiring (some []) =
      ([8091, 8092, 8093, 8094, 8095, 8096, 8097, 9123, 11207, 11210, 11280,
        18091, 18092, 18093, 18094, 18095, 18096, 18097],
       [(8091, 8091), (8092, 8092), (8093, 8093), (8094, 8094), (8095, 8095),
        (8096, 8096), (8097, 8097), (9123, 9123), (11207, 11207), (11210, 11210),
        (11280, 11280), (18091, 18091), (18092, 18092), (18093, 18093),
        (18094, 18094), (18095, 18095), (18096, 18096), (18097, 18097)])) ∧
    (∀ ps : List Nat, ps ≠ [] →
      portWiring (some ps) = (ps, ps.map (fun p => (p, p)))) := by
  refine ⟨rfl, rfl, ?_⟩
  intro ps hps
  cases ps with
  | nil => exact absurd rfl hps
  | cons a l => rfl

/-- Witness for C10 on a non-empty explicit port list. -/
theorem port_wiring_spec_witness :
    portWiring (some [4321]) = ([4321], [(4321, 4321)]) :=
  port_wiring_spec.2.2 [4321] (by decide)

/-! ## Bootstrap requests and step outcomes -/

/-- C7: the four bootstrap POSTs carry exactly the specified payloads and
authentication — the credentials POST is unauthenticated with
`{username, password, port="SAME"}`; the bucket POST carries
`{name, bucketType="couchbase", ramQuotaMB=256}`; the scope POST carries
`{name}`; the collection POST carries
`{name, maxTTL=3600, history="false"}`; every call after the first uses
basic auth with the just-set username and password. -/
theorem bootstrap_request_payloads (cfg : Config) (host port : String)
    (respond : Request → Response) :
    ((set_admin_credentials cfg host port respond).1 =
      { method := .post
        url := settingsUrl host port
        body := [("username", .str cfg.username), ("password", .str cfg.password),
                 ("port", .str "SAME")]
        auth := none }) ∧
    ((create_bucket cfg host port respond).1 =
      { method := .post
        url := bucketsUrl host port
        body := [("name", .str cfg.bucket), ("bucketType", .str "couchbase"),
                 ("ramQuotaMB", .int 256)]
        auth := some (cfg.username, cfg.password) }) ∧
    ((create_scope cfg host port respond).1 =
      { method := .post
        url := scopesUrl host port cfg.bucket
        body := [("name", .str cfg.scope)]
        auth := some (cfg.username, cfg.password) }) ∧
    ((create_collection cfg host port respond).1 =
      { method := .post
        url := collectionsUrl host port cfg.bucket cfg.scope
        body := [("name", .str cfg.collection), ("maxTTL", .int 3600),
                 ("history", .str "false")]
        auth := some (cfg.username, cfg.password) }) := by
  refine ⟨?_, ?_, ?_, ?_⟩ <;>
    simp only [set_admin_credentials, create_bucket, create_scope, create_collection] <;>
    split <;> rfl

/-- C2: each of the four bootstrap POSTs returns normally exactly when
the response status is 2xx, and otherwise raises an error whose detail is
the raw response body; every step issues its one request and nothing else
(no rollback request exists anywhere in the module). -/
theorem bootstrap_steps_status (cfg : Config) (host port : String)
    (respond : Request → Response) :
    (((set_admin_credentials cfg host port respond).2 = .ok () ↔
        is2xx (respond (setAdminCredentialsRequest cfg host port))) ∧
      (¬ is2xx (respond (setAdminCredentialsRequest cfg host port)) →
        (set_admin_credentials cfg host port respond).2 =
          .error (respond (setAdminCredentialsRequest cfg host port)).text)) ∧
    (((create_bucket cfg host port respond).2 = .ok () ↔
        is2xx (respond (createBucketRequest cfg host port))) ∧
      (¬ is2xx (respond (createBucketRequest cfg host port)) →
        (create_bucket cfg host port respond).2 =
          .error (respond (createBucketRequest cfg host port)).text)) ∧
    (((create_scope cfg host port respond).2 = .ok () ↔
        is2xx (respond (createScopeRequest cfg host port))) ∧
      (¬ is2xx (respond (createScopeRequest cfg host port)) →
        (create_scope cfg host port respond).2 =
          .error (respond (createScopeRequest cfg host port)).text)) ∧
    (((create_collection cfg host port respond).2 = .ok () ↔
        is2xx (respond (createCollectionRequest cfg host port))) ∧
      (¬ is2xx (respond (createCollectionRequest cfg host port)) →
        (create_collection cfg host port respond).2 =
          .error (respond (createCollectionRequest cfg host port)).text)) := by
  refine ⟨⟨?_, ?_⟩, ⟨?_, ?_⟩, ⟨?_, ?_⟩, ⟨?_, ?_⟩⟩ <;>
    simp only [set_admin_credentials, create_bucket, create_scope, create_collection,
      is2xx] <;>
    split <;> simp_all

/-- Witness for C2: a 409 response to the credentials POST makes the step
raise with the response body as detail. -/
theorem bootstrap_steps_status_witness :
    (set_admin_credentials
      { username := "Administrator", password := "password", bucket := "default",
        scope := "default", collection := "default" }
      "localhost" "8091"
      (fun _ => { statusCode := 409, text := "conflict", jsonBody := .null })).2 =
      .error "conflict" :=
  (bootstrap_steps_status
    { username := "Administrator", password := "password", bucket := "default",
      scope := "default", collection := "default" }
    "localhost" "8091"
    (fun _ => { statusCode := 409, text := "conflict", jsonBody := .null })).1.2
    (by decide)

/-- C8: `list_buckets` issues one basic-auth GET against the buckets
endpoint; it returns the parsed response body exactly when the status is
2xx and otherwise raises an error carrying the response body; it is a
pure read of the configuration, so its observable behaviour is entirely
determined by the configuration and the endpoint's response. -/
theorem list_buckets_spec (cfg : Config) (host port : String)
    (respond : Request → Response) :
    ((list_buckets cfg host port respond).1 =
      { method := .get, url := bucketsUrl host port, body := [],
        auth := some (cfg.username, cfg.password) }) ∧
    (is2xx (respond
        { method := .get, url := bucketsUrl host port, body := [],
          auth := some (cfg.username, cfg.password) }) →
      (list_buckets cfg host port respond).2 =
        .ok (respond
          { method := .get, url := bucketsUrl host port, body := [],
            auth := some (cfg.username, cfg.password) }).jsonBody) ∧
    (¬ is2xx (respond
        { method := .get, url := bucketsUrl host port, body := [],
          auth := some (cfg.username, cfg.password) }) →
      (list_buckets cfg host port respond).2 =
        .error (respond
          { method := .get, url := bucketsUrl host port, body := [],
            auth := some (cfg.username, cfg.password) }).text) := by
  refine ⟨?_, ?_, ?_⟩ <;>
    simp only [list_buckets, is2xx] <;>
    split <;> simp_all

/-- Witness for C8: a 200 response with a parsed JSON array yields that
array. -/
theorem list_buckets_spec_witness :
    (list_buckets
      { username := "Administrator", password := "password", bucket := "default",
        scope := "default", collection := "default" }
      "localhost" "8091"
      (fun _ => { statusCode := 200, text := "[]", jsonBody := .arr [] })).2 =
      .ok (.arr []) :=
  (list_buckets_spec
    { username := "Administrator", password := "password", bucket := "default",
      scope := "default", collection := "default" }
    "localhost" "8091"
    (fun _ => { statusCode := 200, text := "[]", jsonBody := .arr [] })).2.1
    (by decide)

/-! ## The `start()` sequencing -/

/-- `set_admin_credentials` on a 2xx response. -/
theorem set_admin_credentials_2xx (cfg : Config) (host port : String)
    (respond : Request → Response)
    (h : is2xx (respond (setAdminCredentialsRequest cfg host port))) :
    set_admin_credentials cfg host port respond =
      (setAdminCredentialsRequest cfg host port, .ok ()) := by
  unfold is2xx at h
  simp only [set_admin_credentials]
  rw [if_pos h]

/-- `set_admin_credentials` on a non-2xx response. -/
theorem set_admin_credentials_non2xx (cfg : Config) (host port : String)
    (respond : Request → Response)
    (h : ¬ is2xx (respond (setAdminCredentialsRequest cfg host port))) :
    set_admin_credentials cfg host port respond =
      (setAdminCredentialsRequest cfg host port,
       .error (respond (setAdminCredentialsRequest cfg host port)).text) := by
  unfold is2xx at h
  simp only [set_admin_credentials]
  rw [if_neg h]

/-- `_create_bucket` on a 2xx response. -/
theorem create_bucket_2xx (cfg : Config) (host port : String)
    (respond : Request → Response)
    (h : is2xx (respond (createBucketRequest cfg host port))) :
    create_bucket cfg host port respond =
      (createBucketRequest cfg host port, .ok ()) := by
  unfold is2xx at h
  simp only [create_bucket]
  rw [if_pos h]

/-- `_create_bucket` on a non-2xx response. -/
theorem create_bucket_non2xx (cfg : Config) (host port : String)
    (respond : Request → Response)
    (h : ¬ is2xx (respond (createBucketRequest cfg host port))) :
    create_bucket cfg host port respond =
      (createBucketRequest cfg host port,
       .error (respond (createBucketRequest cfg host port)).text) := by
  unfold is2xx at h
  simp only [create_bucket]
  rw [if_neg h]

/-- `_create_scope` on a 2xx response. -/
theorem create_scope_2xx (cfg : Config) (host port : String)
    (respond : Request → Response)
    (h : is2xx (respond (createScopeRequest cfg host port))) :
    create_scope cfg host port respond =
      (createScopeRequest cfg host port, .ok ()) := by
  unfold is2xx at h
  simp only [create_scope]
  rw [if_pos h]

/-- `_create_scope` on a non-2xx response. -/
theorem create_scope_non2xx (cfg : Config) (host port : String)
    (respond : Request → Response)
    (h : ¬ is2xx (respond (createScopeRequest cfg host port))) :
    create_scope cfg host port respond =
      (createScopeRequest cfg host port,
       .error (respond (createScopeRequest cfg host port)).text) := by
  unfold is2xx at h
  simp only [create_scope]
  rw [if_neg h]

/-- `_create_collection` on a 2xx response. -/
theorem create_collection_2xx (cfg : Config) (host port : String)
    (respond : Request → Response)
    (h : is2xx (respond (createCollectionRequest cfg host port))) :
    create_collection cfg host port respond =
      (createCollectionRequest cfg host port, .ok ()) := by
  unfold is2xx at h
  simp only [create_collection]
  rw [if_pos h]

/-- `_create_collection` on a non-2xx response. -/
theorem create_collection_non2xx (cfg : Config) (host port : String)
    (respond : Request → Response)
    (h : ¬ is2xx (respond (createCollectionRequest cfg host port))) :
    create_collection cfg host port respond =
      (createCollectionRequest cfg host port,
       .error (respond (createCollectionRequest cfg host port)).text) := by
  unfold is2xx at h
  simp only [create_collection]
  rw [if_neg h]

/-- Case analysis of the provisioning tail of `start()`: the exact
requests issued and the outcome, for every combination of step
successes. -/
theorem provisionSequence_spec (cfg : Config) (host port : String)
    (respond : Request → Response) :
    (¬ is2xx (respond (setAdminCredentialsRequest cfg host port)) →
      provisionSequence cfg host port respond =
        ([setAdminCredentialsRequest cfg host port],
         .error (respond (setAdminCredentialsRequest cfg host port)).text)) ∧
    (is2xx (respond (setAdminCredentialsRequest cfg host port)) →
      ¬ is2xx (respond (createBucketRequest cfg host port)) →
      provisionSequence cfg host port respond =
        ([setAdminCredentialsRequest cfg host port,
          createBucketRequest cfg host port],
         .error (respond (createBucketRequest cfg host port)).text)) ∧
    (is2xx (respond (setAdminCredentialsRequest cfg host port)) →
      is2xx (respond (createBucketRequest cfg host port)) →
      ¬ is2xx (respond (createScopeRequest cfg host port)) →
      provisionSequence cfg host port respond =
        ([setAdminCredentialsRequest cfg host port,
          createBucketRequest cfg host port,
          createScopeRequest cfg host port],
         .error (respond (createScopeRequest cfg host port)).text)) ∧
    (is2xx (respond (setAdminCredentialsRequest cfg host port)) →
      is2xx (respond (createBucketRequest cfg host port)) →
      is2xx (respond (createScopeRequest cfg host port)) →
      ¬ is2xx (respond (createCollectionRequest cfg host port)) →
      provisionSequence cfg host port respond =
        ([setAdminCredentialsRequest cfg host port,
          createBucketRequest cfg host port,
          createScopeRequest cfg host port,
          createCollectionRequest cfg host port],
         .error (respond (createCollectionRequest cfg host port)).text)) ∧
    (is2xx (respond (setAdminCredentialsRequest cfg host port)) →
      is2xx (respond (createBucketRequest cfg host port)) →
      is2xx (respond (createScopeRequest cfg host port)) →
      is2xx (respond (createCollectionRequest cfg host port)) →
      provisionSequence cfg host port respond =
        ([setAdminCredentialsRequest cfg host port,
          createBucketRequest cfg host port,
          createScopeRequest cfg host port,
          createCollectionRequest cfg host port],
         .ok ())) := by
  refine ⟨?_, ?_, ?_, ?_, ?_⟩
  · intro h1
    simp [provisionSequence, set_admin_credentials_non2xx cfg host port respond h1]
  · intro h1 h2
    simp [provisionSequence, set_admin_credentials_2xx cfg host port respond h1,
      create_bucket_non2xx cfg host port respond h2]
  · intro h1 h2 h3
    simp [provisionSequence, set_admin_credentials_2xx cfg host port respond h1,
      create_bucket_2xx cfg host port respond h2,
      create_scope_non2xx cfg host port respond h3]
  · intro h1 h2 h3 h4
    simp [provisionSequence, set_admin_credentials_2xx cfg host port respond h1,
      create_bucket_2xx cfg host port respond h2,
      create_scope_2xx cfg host port respond h3,
      create_collection_non2xx cfg host port respond h4]
  · intro h1 h2 h3 h4
    simp [provisionSequence, set_admin_credentials_2xx cfg host port respond h1,
      create_bucket_2xx cfg host port respond h2,
      create_scope_2xx cfg host port respond h3,
      create_collection_2xx cfg host port respond h4]

/-- C1: on every run of `start()` whose readiness wait terminates, the
HTTP trace is the readiness polls (settings GETs, ending at the first 2xx
response) followed by the provisioning requests in the strict order
credentials → bucket → scope → collection, cut off immediately after the
first failing step, whose response body becomes the error; in particular,
when the credentials call fails, no bucket, scope or collection request
is ever issued. -/
theorem start_provisioning_order (cfg : Config) (host port : String)
    (poll : Nat → PollResult) (respond : Request → Response) (fuel : Nat)
    (trace : List Request) (res : Except String Unit)
    (h : startRun cfg host port poll respond fuel = some (trace, res)) :
    ∃ k provTrace,
      pollSuccess (poll k) ∧
      (∀ j, j < k → ¬ pollSuccess (poll j)) ∧
      trace = List.replicate (k + 1) (settingsGetRequest host port) ++ provTrace ∧
      (¬ is2xx (respond (setAdminCredentialsRequest cfg host port)) →
        provTrace = [setAdminCredentialsRequest cfg host port] ∧
        res = .error (respond (setAdminCredentialsRequest cfg host port)).text) ∧
      (is2xx (respond (setAdminCredentialsRequest cfg host port)) →
        ¬ is2xx (respond (createBucketRequest cfg host port)) →
        provTrace = [setAdminCredentialsRequest cfg host port,
                     createBucketRequest cfg host port] ∧
        res = .error (respond (createBucketRequest cfg host port)).text) ∧
      (is2xx (respond (setAdminCredentialsRequest cfg host port)) →
        is2xx (respond (createBucketRequest cfg host port)) →
        ¬ is2xx (respond (createScopeRequest cfg host port)) →
        provTrace = [setAdminCredentialsRequest cfg host port,
                     createBucketRequest cfg host port,
                     createScopeRequest cfg host port] ∧
        res = .error (respond (createScopeRequest cfg host port)).text) ∧
      (is2xx (respond (setAdminCredentialsRequest cfg host port)) →
        is2xx (respond (createBucketRequest cfg host port)) →
        is2xx (respond (createScopeRequest cfg host port)) →
        ¬ is2xx (respond (createCollectionRequest cfg host port)) →
        provTrace = [setAdminCredentialsRequest cfg host port,
                     createBucketRequest cfg host port,
                     createScopeRequest cfg host port,
                     createCollectionRequest cfg host port] ∧
        res = .error (respond (createCollectionRequest cfg host port)).text) ∧
      (is2xx (respond (setAdminCredentialsRequest cfg host port)) →
        is2xx (respond (createBucketRequest cfg host port)) →
        is2xx (respond (createScopeRequest cfg host port)) →
        is2xx (respond (createCollectionRequest cfg host port)) →
        provTrace = [setAdminCredentialsRequest cfg host port,
                     createBucketRequest cfg host port,
                     createScopeRequest cfg host port,
                     createCollectionRequest cfg host port] ∧
        res = .ok ()) := by
  simp only [startRun, connect] at h
  cases hc : (connectFrom host port poll 0 fuel).2 with
  | none => rw [hc] at h; exact absurd h (by simp)
  | some k =>
    rw [hc] at h
    dsimp only at h
    rw [Option.some_inj, Prod.mk.injEq] at h
    obtain ⟨htrace, hres⟩ := h
    have hks := (connectFrom_some_iff host port poll fuel 0 k).mp hc
    have htr := connectFrom_trace host port poll fuel 0 k hc
    refine ⟨k, (provisionSequence cfg host port respond).1, hks.2.2.1, ?_, ?_, ?_, ?_,
      ?_, ?_, ?_⟩
    · intro j hj
      exact hks.2.2.2 j (Nat.zero_le j) hj
    · rw [← htrace, htr]
      simp
    · intro h1
      have hp := (provisionSequence_spec cfg host port respond).1 h1
      exact ⟨by rw [hp], by rw [← hres, hp]⟩
    · intro h1 h2
      have hp := (provisionSequence_spec cfg host port respond).2.1 h1 h2
      exact ⟨by rw [hp], by rw [← hres, hp]⟩
    · intro h1 h2 h3
      have hp := (provisionSequence_spec cfg host port respond).2.2.1 h1 h2 h3
      exact ⟨by rw [hp], by rw [← hres, hp]⟩
    · intro h1 h2 h3 h4
      have hp := (provisionSequence_spec cfg host port respond).2.2.2.1 h1 h2 h3 h4
      exact ⟨by rw [hp], by rw [← hres, hp]⟩
    · intro h1 h2 h3 h4
      have hp := (provisionSequence_spec cfg host port respond).2.2.2.2 h1 h2 h3 h4
      exact ⟨by rw [hp], by rw [← hres, hp]⟩

/-- Witness for C1: with the endpoint ready at once and every
provisioning POST rejected with 401, the completed run's trace is one
settings GET followed by the credentials POST alone — no bucket, scope or
collection request. -/
theorem start_provisioning_order_witness :
    ∃ k provTrace,
      pollSuccess (alwaysReadyPoll k) ∧
      [settingsGetRequest "localhost" "8091",
       setAdminCredentialsRequest sampleConfig "localhost" "8091"] =
        List.replicate (k + 1) (settingsGetRequest "localhost" "8091") ++ provTrace ∧
      provTrace = [setAdminCredentialsRequest sampleConfig "localhost" "8091"] := by
  obtain ⟨k, pt, hs, hmin, htr, hfail, -, -, -, -⟩ :=
    start_provisioning_order sampleConfig "localhost" "8091" alwaysReadyPoll
      denyAllRespond 1
      [settingsGetRequest "localhost" "8091",
       setAdminCredentialsRequest sampleConfig "localhost" "8091"]
      (.error "denied") rfl
  exact ⟨k, pt, hs, htr, (hfail (by decide)).1⟩

end Couchbase
